import Mathlib

/-!
Verification of the Sovereign SDK MetaMask snap RPC handler (`onRpcRequest` in
`packages/snap/src/index.ts`, shown in the repository alongside the site
component, plus the superstruct schemas in `types.ts`).

The handler is embedded shallowly: JSON-RPC parameter values are modelled by
`JsValue`; the superstruct schemas `GetAddressStruct`, `TransactionStruct` and
`SignTransactionStruct` become boolean validators; the external collaborators
(the MetaMask custody gateway `snap_getBip32PublicKey` / `snap_getBip32Entropy`,
the confirmation dialog, the `SovWasm` codec and the ed25519 signer) are
parameters gathered in an `Env`.  The handler returns its JSON-RPC outcome
together with the ordered trace of external calls it performed, so that claims
about call ordering, omitted calls and resource release are statable.
-/

namespace SovereignSnap

/-- A JSON value as carried by a JSON-RPC request.  JavaScript numbers are
modelled as rationals (`NaN` is not representable in JSON and is therefore not
modelled). -/
inductive JsValue where
  | null : JsValue
  | bool : Bool → JsValue
  | num : Rat → JsValue
  | str : String → JsValue
  | arr : List JsValue → JsValue
  | obj : List (String × JsValue) → JsValue

/-- Property lookup on a JavaScript object (first matching key). -/
def lookupField : List (String × JsValue) → String → Option JsValue
  | [], _ => none
  | p :: fields, key => if p.1 == key then some p.2 else lookupField fields key

/-- superstruct `number()`: `typeof value === 'number' && !isNaN(value)`. -/
def isNum : JsValue → Bool
  | .num _ => true
  | _ => false

/-- superstruct `isObject`: any non-null value of JavaScript typeof `object`
(plain objects and arrays both qualify); used by the schemaless `object()`
validating the `call` field. -/
def isObjectLike : JsValue → Bool
  | .obj _ => true
  | .arr _ => true
  | _ => false

/-- superstruct `array(number())`. -/
def isNumArray : JsValue → Bool
  | .arr elems => elems.all isNum
  | _ => false

/-- `GetAddressStruct = type({ keyId: number() })` — a loose `type` struct:
`keyId` must be present and a number, unknown extra properties are allowed. -/
def validateGetAddress (params : JsValue) : Bool :=
  match params with
  | .obj fields =>
      match lookupField fields "keyId" with
      | some v => isNum v
      | none => false
  | _ => false

/-- The property names declared by `TransactionStruct`. -/
def transactionKeys : List String :=
  ["call", "chain_id", "max_priority_fee_bips", "max_fee", "gas_limit", "nonce"]

/-- `TransactionStruct = object({ call: object(), chain_id: number(),
max_priority_fee_bips: number(), max_fee: number(),
gas_limit: optional(array(number())), nonce: number() })` — a strict `object`
struct: every declared non-optional key must be present and well-typed, and
unknown keys are rejected. -/
def validateTransaction (v : JsValue) : Bool :=
  match v with
  | .obj fields =>
      (match lookupField fields "call" with
       | some c => isObjectLike c
       | none => false) &&
      (match lookupField fields "chain_id" with
       | some c => isNum c
       | none => false) &&
      (match lookupField fields "max_priority_fee_bips" with
       | some c => isNum c
       | none => false) &&
      (match lookupField fields "max_fee" with
       | some c => isNum c
       | none => false) &&
      (match lookupField fields "gas_limit" with
       | some c => isNumArray c
       | none => true) &&
      (match lookupField fields "nonce" with
       | some c => isNum c
       | none => false) &&
      fields.all (fun p => transactionKeys.contains p.1)
  | _ => false

/-- `SignTransactionStruct = object({ transaction: TransactionStruct,
keyId: number() })` — strict: unknown top-level keys are rejected. -/
def validateSignTransaction (params : JsValue) : Bool :=
  match params with
  | .obj fields =>
      (match lookupField fields "transaction" with
       | some t => validateTransaction t
       | none => false) &&
      (match lookupField fields "keyId" with
       | some k => isNum k
       | none => false) &&
      fields.all (fun p => p.1 == "transaction" || p.1 == "keyId")
  | _ => false

/-- `remove0x` from `@metamask/utils`: strip a leading `0x` when present. -/
def remove0x (s : String) : String :=
  if s.startsWith "0x" then s.drop 2 else s

/-- `cleanPublicKeyResponse`: slicing skips the key byte flags prefix (one
byte, i.e. two hex characters) which MetaMask prepends to the public key. -/
def cleanPublicKeyResponse (metamaskPublicKeyResponse : String) : String :=
  (remove0x metamaskPublicKeyResponse).drop 2

/-- `omitKey`: object destructuring that removes one key and keeps the
remaining properties in their original order. -/
def omitKey (key : String) (fields : List (String × JsValue)) : List (String × JsValue) :=
  fields.filter (fun p => p.1 != key)

/-- Hexadecimal digit character for a value below 16. -/
def hexDigit (n : Nat) : Char :=
  if n < 10 then Char.ofNat (48 + n) else Char.ofNat (87 + n)

/-- Two lowercase hex characters for one byte. -/
def byteToHex (b : Nat) : String :=
  String.mk [hexDigit (b / 16 % 16), hexDigit (b % 16)]

/-- `bytesToHex` from `@metamask/utils`: `0x`-prefixed lowercase hex string. -/
def bytesToHex (bytes : List Nat) : String :=
  "0x" ++ String.join (bytes.map byteToHex)

/-- The BIP-32 hardened-index marker (an apostrophe). -/
def hardenedMark : String := String.mk [Char.ofNat 39]

/-- Arguments passed to the MetaMask custody gateway. -/
structure KeypairParams where
  path : List String
  compressed : Bool
  curve : String

/-- `getKeypairParams`: derivation path `['m', "44'", "1551'", "<keyId>'"]`
with the coin type hardcoded to 1551. -/
def getKeypairParams (keyId : Rat) : KeypairParams :=
  { path := ["m", "44" ++ hardenedMark, "1551" ++ hardenedMark,
             toString keyId ++ hardenedMark]
  , compressed := true
  , curve := "ed25519" }

/-- The SLIP-10 node recovered from `snap_getBip32Entropy` via
`SLIP10Node.fromJSON`; `privateKey` is `none` when the node carries no private
key (then `assert(node.privateKey)` throws). -/
structure Slip10Node where
  privateKey : Option String
  publicKey : String

/-- The external collaborators of one request: custody gateway responses,
the human confirmation decision, the `SovWasm` codec and the ed25519 signer.
An `Except.error` models the corresponding call throwing. -/
structure Env where
  publicKeyResponse : Except String String
  entropyNode : Except String Slip10Node
  dialogApproved : Bool
  bechEncodePublicKey : String → Except String String
  serializeCall : JsValue → Except String (List Nat)
  serializeUnsignedTransaction : JsValue → Except String (List Nat)
  serializeTransaction : JsValue → Except String (List Nat)
  sign : List Nat → String → Except String (List Nat)

/-- Observable events of one request, in execution order. -/
inductive Event where
  | validate : String → Event
  | snapGetBip32PublicKey : KeypairParams → Event
  | snapGetBip32Entropy : KeypairParams → Event
  | wasmBechEncodePublicKey : String → Event
  | dialog : String → String → Event
  | wasmSerializeCall : JsValue → Event
  | wasmSerializeUnsignedTransaction : JsValue → Event
  | signCall : List Nat → String → Event
  | wasmSerializeTransaction : JsValue → Event
  | wasmDealloc : Event

/-- The errors the handler can surface. -/
inductive RpcError where
  | invalidParams : String → RpcError
  | userRejectedRequest : RpcError
  | methodNotFound : RpcError
  | assertionFailed : RpcError
  | thrown : String → RpcError

/-- Stand-in for the superstruct `StructError` description attached to the
`rpcErrors.invalidParams` thrown by the `getAddress` branch; the precise text
is produced by the external superstruct library. -/
def getAddressValidationMsg : String :=
  "At path keyId: expected a number"

/-- Stand-in for the superstruct `StructError` description attached to the
`rpcErrors.invalidParams` thrown by the `signTransaction` branch. -/
def signTransactionValidationMsg : String :=
  "invalid signTransaction parameters"

/-- Coerce a byte (as produced by `Array.from` on a `Uint8Array`) into a
JavaScript number. -/
def natJs (b : Nat) : JsValue := .num (b : Rat)

/-- The unsigned transaction object built by the handler: spread of
`omitKey("call", transaction)` followed by the `runtime_msg` property holding
`Array.from(wasm.serializeCall(transaction.call))`. -/
def unsignedTxOf (txFields : List (String × JsValue)) (runtimeMsgBytes : List Nat) : JsValue :=
  .obj (omitKey "call" txFields ++ [("runtime_msg", .arr (runtimeMsgBytes.map natJs))])

/-- The signed transaction object built by the handler:
`{ signature: { msg_sig: sig }, pub_key: publicKey, ...unsignedTransaction }`. -/
def signedTxOf (txFields : List (String × JsValue)) (runtimeMsgBytes : List Nat)
    (sigBytes : List Nat) (publicKey : String) : JsValue :=
  .obj (("signature", .obj [("msg_sig", .arr (sigBytes.map natJs))]) ::
        ("pub_key", .str publicKey) ::
        (omitKey "call" txFields ++ [("runtime_msg", .arr (runtimeMsgBytes.map natJs))]))

/-- Property lookup directly on a params value. -/
def paramsField (params : JsValue) (key : String) : Option JsValue :=
  match params with
  | .obj fields => lookupField fields key
  | _ => none

/-- The numeric value of a property (0 as a don't-care fallback on the
non-number case, which validation excludes). -/
def getNumField (params : JsValue) (key : String) : Rat :=
  match paramsField params key with
  | some (.num q) => q
  | _ => 0

/-- The field list of an object value. -/
def objFields : JsValue → List (String × JsValue)
  | .obj fields => fields
  | _ => []

/-- The validated `transaction` property of the `signTransaction` params. -/
def txFieldsOf (params : JsValue) : List (String × JsValue) :=
  objFields ((paramsField params "transaction").getD .null)

/-- The `try` block of the `getAddress` branch: request the public key from
`snap_getBip32PublicKey`, strip the flag prefix, bech-encode.  The enclosing
`try`/`catch` (which deallocates the codec) is added by `getAddressHandler`. -/
def getAddressTry (env : Env) (kp : KeypairParams) :
    Except RpcError String × List Event :=
  match env.publicKeyResponse with
  | .error e => (.error (.thrown e), [.snapGetBip32PublicKey kp])
  | .ok resp =>
      match env.bechEncodePublicKey (cleanPublicKeyResponse resp) with
      | .error e =>
          (.error (.thrown e),
           [.snapGetBip32PublicKey kp,
            .wasmBechEncodePublicKey (cleanPublicKeyResponse resp)])
      | .ok address =>
          (.ok address,
           [.snapGetBip32PublicKey kp,
            .wasmBechEncodePublicKey (cleanPublicKeyResponse resp)])

/-- The `try` block of the `signTransaction` branch, mirroring the source
statement by statement: entropy request, `assert(node.privateKey)`, prefix
strip, bech encoding, confirmation dialog, rejection check, call
serialization, unsigned-transaction build, canonical encoding, signing,
signed-transaction assembly, canonical encoding, hex encoding.  The enclosing
`try`/`catch` (which deallocates the codec) is added by
`signTransactionHandler`. -/
def signTransactionTry (env : Env) (origin : String)
    (txFields : List (String × JsValue)) (kp : KeypairParams) :
    Except RpcError String × List Event :=
  match env.entropyNode with
  | .error e => (.error (.thrown e), [.snapGetBip32Entropy kp])
  | .ok node =>
    match node.privateKey with
    | none => (.error .assertionFailed, [.snapGetBip32Entropy kp])
    | some privateKeyHex =>
      match env.bechEncodePublicKey (cleanPublicKeyResponse node.publicKey) with
      | .error e =>
          (.error (.thrown e),
           [.snapGetBip32Entropy kp,
            .wasmBechEncodePublicKey (cleanPublicKeyResponse node.publicKey)])
      | .ok address =>
        if !env.dialogApproved then
          (.error .userRejectedRequest,
           [.snapGetBip32Entropy kp,
            .wasmBechEncodePublicKey (cleanPublicKeyResponse node.publicKey),
            .dialog origin address])
        else
          match env.serializeCall ((lookupField txFields "call").getD .null) with
          | .error e =>
              (.error (.thrown e),
               [.snapGetBip32Entropy kp,
                .wasmBechEncodePublicKey (cleanPublicKeyResponse node.publicKey),
                .dialog origin address,
                .wasmSerializeCall ((lookupField txFields "call").getD .null)])
          | .ok runtimeMsgBytes =>
            match env.serializeUnsignedTransaction (unsignedTxOf txFields runtimeMsgBytes) with
            | .error e =>
                (.error (.thrown e),
                 [.snapGetBip32Entropy kp,
                  .wasmBechEncodePublicKey (cleanPublicKeyResponse node.publicKey),
                  .dialog origin address,
                  .wasmSerializeCall ((lookupField txFields "call").getD .null),
                  .wasmSerializeUnsignedTransaction (unsignedTxOf txFields runtimeMsgBytes)])
            | .ok serializedUnsigned =>
              match env.sign serializedUnsigned (remove0x privateKeyHex) with
              | .error e =>
                  (.error (.thrown e),
                   [.snapGetBip32Entropy kp,
                    .wasmBechEncodePublicKey (cleanPublicKeyResponse node.publicKey),
                    .dialog origin address,
                    .wasmSerializeCall ((lookupField txFields "call").getD .null),
                    .wasmSerializeUnsignedTransaction (unsignedTxOf txFields runtimeMsgBytes),
                    .signCall serializedUnsigned (remove0x privateKeyHex)])
              | .ok sigBytes =>
                match env.serializeTransaction
                    (signedTxOf txFields runtimeMsgBytes sigBytes
                      (cleanPublicKeyResponse node.publicKey)) with
                | .error e =>
                    (.error (.thrown e),
                     [.snapGetBip32Entropy kp,
                      .wasmBechEncodePublicKey (cleanPublicKeyResponse node.publicKey),
                      .dialog origin address,
                      .wasmSerializeCall ((lookupField txFields "call").getD .null),
                      .wasmSerializeUnsignedTransaction (unsignedTxOf txFields runtimeMsgBytes),
                      .signCall serializedUnsigned (remove0x privateKeyHex),
                      .wasmSerializeTransaction
                        (signedTxOf txFields runtimeMsgBytes sigBytes
                          (cleanPublicKeyResponse node.publicKey))])
                | .ok txBytes =>
                    (.ok (bytesToHex txBytes),
                     [.snapGetBip32Entropy kp,
                      .wasmBechEncodePublicKey (cleanPublicKeyResponse node.publicKey),
                      .dialog origin address,
                      .wasmSerializeCall ((lookupField txFields "call").getD .null),
                      .wasmSerializeUnsignedTransaction (unsignedTxOf txFields runtimeMsgBytes),
                      .signCall serializedUnsigned (remove0x privateKeyHex),
                      .wasmSerializeTransaction
                        (signedTxOf txFields runtimeMsgBytes sigBytes
                          (cleanPublicKeyResponse node.publicKey))])

/-- The `getAddress` case of the handler: validate, then run the `try` block;
whether it returns or throws, `wasm.dealloc()` runs exactly once afterwards.
A validation error is thrown before any external call. -/
def getAddressHandler (env : Env) (params : JsValue) :
    Except RpcError String × List Event :=
  if validateGetAddress params then
    ((getAddressTry env (getKeypairParams (getNumField params "keyId"))).1,
     .validate "GetAddressStruct" ::
       (getAddressTry env (getKeypairParams (getNumField params "keyId"))).2 ++
       [.wasmDealloc])
  else
    (.error (.invalidParams getAddressValidationMsg), [.validate "GetAddressStruct"])

/-- The `signTransaction` case of the handler: validate, then run the `try`
block; whether it returns or throws (including on user rejection),
`wasm.dealloc()` runs exactly once afterwards.  A validation error is thrown
before any external call. -/
def signTransactionHandler (env : Env) (origin : String) (params : JsValue) :
    Except RpcError String × List Event :=
  if validateSignTransaction params then
    ((signTransactionTry env origin (txFieldsOf params)
        (getKeypairParams (getNumField params "keyId"))).1,
     .validate "SignTransactionStruct" ::
       (signTransactionTry env origin (txFieldsOf params)
          (getKeypairParams (getNumField params "keyId"))).2 ++
       [.wasmDealloc])
  else
    (.error (.invalidParams signTransactionValidationMsg),
     [.validate "SignTransactionStruct"])

/-- `onRpcRequest`: dispatch on the method name; unrecognized methods throw
`Error('Method not found.')` without touching validator, gateway or codec. -/
def onRpcRequest (env : Env) (origin method : String) (params : JsValue) :
    Except RpcError String × List Event :=
  if method = "getAddress" then getAddressHandler env params
  else if method = "signTransaction" then signTransactionHandler env origin params
  else (.error .methodNotFound, [])

/-- Is an event an invocation of the canonical encoder or of the signer? -/
def isEncoderOrSignerEvent : Event → Bool
  | .wasmSerializeCall _ => true
  | .wasmSerializeUnsignedTransaction _ => true
  | .wasmSerializeTransaction _ => true
  | .signCall _ _ => true
  | _ => false

/-- Is an event the codec release `wasm.dealloc()`? -/
def isDealloc : Event → Bool
  | .wasmDealloc => true
  | _ => false

/-- Number of canonical-encoder and signer invocations in a trace. -/
def encoderSignerCount (tr : List Event) : Nat :=
  (tr.filter isEncoderOrSignerEvent).length

/-- Number of codec releases in a trace. -/
def deallocCount (tr : List Event) : Nat :=
  (tr.filter isDealloc).length

/-! ### Concrete fixtures used by witnesses and counterexamples -/

/-- A concrete call payload, shaped like the bank `CreateToken` message used
in the repository tests. -/
def sampleCall : JsValue :=
  .obj [("bank", .obj [("CreateToken", .obj [("salt", .num 11)])])]

/-- A concrete transaction envelope matching the shape used by the repository
tests (`keyId 0`, `chain_id 4321`, `max_fee 10000`, empty `gas_limit`). -/
def sampleTxFields : List (String × JsValue) :=
  [("call", sampleCall), ("nonce", .num 0), ("chain_id", .num 4321),
   ("max_priority_fee_bips", .num 0), ("max_fee", .num 10000),
   ("gas_limit", .arr [])]

/-- Concrete valid `signTransaction` parameter fields. -/
def samplePfs : List (String × JsValue) :=
  [("keyId", .num 0), ("transaction", .obj sampleTxFields)]

/-- A concrete SLIP-10 node as produced by `SLIP10Node.fromJSON`. -/
def sampleNode : Slip10Node :=
  { privateKey := some "0x0011", publicKey := "0x00aabb" }

/-- A concrete environment in which every external call succeeds and the
operator approves the confirmation dialog. -/
def sampleEnvApprove : Env :=
  { publicKeyResponse := .ok "0x00aabb"
  , entropyNode := .ok sampleNode
  , dialogApproved := true
  , bechEncodePublicKey := fun pk => .ok ("sov" ++ pk)
  , serializeCall := fun _ => .ok [1, 2, 3]
  , serializeUnsignedTransaction := fun _ => .ok [4, 5]
  , serializeTransaction := fun _ => .ok [6, 7]
  , sign := fun _ _ => .ok [8, 9] }

/-- The same environment with the operator rejecting at the dialog. -/
def sampleEnvReject : Env :=
  { sampleEnvApprove with dialogApproved := false }

/-! ### C8: unrecognized method names -/

/-- Claim C8: for every incoming request whose method name is neither
`getAddress` nor `signTransaction`, the handler fails with the generic
`Method not found.` error, and the trace is empty: the validator, the custody
gateway and the codec are never invoked. -/
theorem unknown_method_not_found (env : Env) (origin method : String)
    (params : JsValue) (h1 : method ≠ "getAddress")
    (h2 : method ≠ "signTransaction") :
    onRpcRequest env origin method params = (.error .methodNotFound, []) := by
  unfold onRpcRequest
  rw [if_neg h1, if_neg h2]

/-- Witness for C8 at the concrete method name `foo` used by the repository
test suite. -/
theorem unknown_method_not_found_witness :
    onRpcRequest sampleEnvApprove "app" "foo" (.obj []) =
      (.error .methodNotFound, []) :=
  unknown_method_not_found sampleEnvApprove "app" "foo" (.obj [])
    (by decide) (by decide)

/-! ### C10: loose `type` for getAddress vs strict `object` for
signTransaction -/

/-- Claim C10: a params object carrying `keyId`, a valid `transaction` and one
extra unknown property passes `GetAddressStruct` (a loose superstruct `type`)
but fails `SignTransactionStruct` (a strict superstruct `object`); dropping
the extra property makes `SignTransactionStruct` pass, so the rejection is due
to the unknown key alone. -/
theorem loose_getAddress_strict_signTransaction :
    validateGetAddress
      (.obj (("extra", .bool true) :: samplePfs)) = true ∧
    validateSignTransaction
      (.obj (("extra", .bool true) :: samplePfs)) = false ∧
    validateSignTransaction (.obj samplePfs) = true ∧
    validateTransaction (.obj sampleTxFields) = true :=
  ⟨rfl, rfl, rfl, rfl⟩

/-! ### C6: validation failures surface before any external call -/

/-- Claim C6: whenever the parameters of a recognized method fail validation,
the handler returns the `ValidationError` immediately: the trace holds only
the validation event, so no custody-gateway call (`snap_getBip32PublicKey` or
`snap_getBip32Entropy`) is made and no codec resource is touched before the
error is returned. -/
theorem validation_failure_surfaces_immediately (env : Env) (origin : String)
    (params : JsValue) :
    (validateGetAddress params = false →
      onRpcRequest env origin "getAddress" params =
        (.error (.invalidParams getAddressValidationMsg),
         [.validate "GetAddressStruct"])) ∧
    (validateSignTransaction params = false →
      onRpcRequest env origin "signTransaction" params =
        (.error (.invalidParams signTransactionValidationMsg),
         [.validate "SignTransactionStruct"])) := by
  constructor
  · intro h
    unfold onRpcRequest getAddressHandler
    rw [if_pos rfl, h]
    rfl
  · intro h
    unfold onRpcRequest signTransactionHandler
    rw [if_neg (by decide : ("signTransaction" : String) ≠ "getAddress"),
        if_pos rfl, h]
    rfl

/-- Witness for C6: a `getAddress` request with a string `keyId` and a
`signTransaction` request with a string `keyId` both fail immediately with an
empty external trace. -/
theorem validation_failure_surfaces_immediately_witness :
    onRpcRequest sampleEnvApprove "app" "getAddress"
        (.obj [("keyId", .str "0")]) =
      (.error (.invalidParams getAddressValidationMsg),
       [.validate "GetAddressStruct"]) ∧
    onRpcRequest sampleEnvApprove "app" "signTransaction"
        (.obj [("keyId", .str "0"), ("transaction", .obj sampleTxFields)]) =
      (.error (.invalidParams signTransactionValidationMsg),
       [.validate "SignTransactionStruct"]) :=
  ⟨(validation_failure_surfaces_immediately sampleEnvApprove "app"
      (.obj [("keyId", .str "0")])).1 rfl,
   (validation_failure_surfaces_immediately sampleEnvApprove "app"
      (.obj [("keyId", .str "0"), ("transaction", .obj sampleTxFields)])).2 rfl⟩

/-! ### C1: rejection at the confirmation dialog -/

/-- Claim C1: for every `signTransaction` request that reaches the
confirmation dialog (validation passed, entropy and bech encoding succeeded)
and is rejected by the operator, the handler raises the user-rejection error,
the canonical encoder (`serializeCall`, `serializeUnsignedTransaction`,
`serializeTransaction`) and the signer are invoked zero times, and the codec
handle is still released exactly once. -/
theorem rejection_skips_encoder_and_signer (env : Env) (origin : String)
    (pfs : List (String × JsValue)) (node : Slip10Node) (pkHex addr : String)
    (hval : validateSignTransaction (.obj pfs) = true)
    (hent : env.entropyNode = .ok node)
    (hpk : node.privateKey = some pkHex)
    (hbech : env.bechEncodePublicKey (cleanPublicKeyResponse node.publicKey) =
      .ok addr)
    (hrej : env.dialogApproved = false) :
    (onRpcRequest env origin "signTransaction" (.obj pfs)).1 =
      .error .userRejectedRequest ∧
    encoderSignerCount (onRpcRequest env origin "signTransaction" (.obj pfs)).2 = 0 ∧
    deallocCount (onRpcRequest env origin "signTransaction" (.obj pfs)).2 = 1 := by
  have hrun : onRpcRequest env origin "signTransaction" (.obj pfs) =
      (.error .userRejectedRequest,
       [.validate "SignTransactionStruct",
        .snapGetBip32Entropy (getKeypairParams (getNumField (.obj pfs) "keyId")),
        .wasmBechEncodePublicKey (cleanPublicKeyResponse node.publicKey),
        .dialog origin addr,
        .wasmDealloc]) := by
    simp [onRpcRequest, signTransactionHandler, signTransactionTry,
      txFieldsOf, paramsField, objFields, hval, hent, hpk, hbech, hrej]
  rw [hrun]
  exact ⟨rfl, rfl, rfl⟩

/-- Witness for C1: the concrete rejecting environment on the concrete valid
request terminates with the user-rejection error, zero encoder/signer calls
and one codec release. -/
theorem rejection_skips_encoder_and_signer_witness :
    (onRpcRequest sampleEnvReject "app" "signTransaction" (.obj samplePfs)).1 =
      .error .userRejectedRequest ∧
    encoderSignerCount
      (onRpcRequest sampleEnvReject "app" "signTransaction" (.obj samplePfs)).2 = 0 ∧
    deallocCount
      (onRpcRequest sampleEnvReject "app" "signTransaction" (.obj samplePfs)).2 = 1 :=
  rejection_skips_encoder_and_signer sampleEnvReject "app" samplePfs
    sampleNode "0x0011" ("sov" ++ cleanPublicKeyResponse sampleNode.publicKey)
    rfl rfl rfl rfl rfl

/-! ### C7: public key normalization before address encoding -/

/-- Claim C7: the handler normalizes every raw custody-gateway public key
response by stripping exactly the fixed one-byte flag prefix — the first two
hex characters after removing the `0x` prefix — and the returned address is
the bech encoding of that normalized key only: the codec's address encoder is
invoked exactly once, on the normalized key. -/
theorem address_from_prefix_stripped_key (env : Env) (origin : String)
    (params : JsValue) (resp addr : String)
    (hval : validateGetAddress params = true)
    (hresp : env.publicKeyResponse = .ok resp)
    (hbech : env.bechEncodePublicKey ((remove0x resp).drop 2) = .ok addr) :
    cleanPublicKeyResponse resp = (remove0x resp).drop 2 ∧
    onRpcRequest env origin "getAddress" params =
      (.ok addr,
       [.validate "GetAddressStruct",
        .snapGetBip32PublicKey (getKeypairParams (getNumField params "keyId")),
        .wasmBechEncodePublicKey ((remove0x resp).drop 2),
        .wasmDealloc]) := by
  refine ⟨rfl, ?_⟩
  simp [onRpcRequest, getAddressHandler, getAddressTry, cleanPublicKeyResponse,
    hval, hresp, hbech]

/-- Witness for C7 at the concrete custody response `0x00aabb`: the flag byte
`00` is stripped and the address is the bech encoding of `aabb`. -/
theorem address_from_prefix_stripped_key_witness :
    cleanPublicKeyResponse "0x00aabb" = (remove0x "0x00aabb").drop 2 ∧
    onRpcRequest sampleEnvApprove "app" "getAddress" (.obj [("keyId", .num 0)]) =
      (.ok ("sov" ++ (remove0x "0x00aabb").drop 2),
       [.validate "GetAddressStruct",
        .snapGetBip32PublicKey
          (getKeypairParams (getNumField (.obj [("keyId", .num 0)]) "keyId")),
        .wasmBechEncodePublicKey ((remove0x "0x00aabb").drop 2),
        .wasmDealloc]) :=
  address_from_prefix_stripped_key sampleEnvApprove "app"
    (.obj [("keyId", .num 0)]) "0x00aabb"
    ("sov" ++ (remove0x "0x00aabb").drop 2) rfl rfl rfl

/-! ### C2: the signature covers exactly the canonical unsigned bytes -/

/-- Claim C2: for every approved `signTransaction` request, the signer is
invoked exactly once, on exactly the canonical byte encoding of the built
UnsignedTransaction (`serializedUnsignedTransaction`) — no other
representation of the transaction is substituted — and the returned value is
the hex encoding of the canonically encoded SignedTransaction
`{ signature: { msg_sig: sig }, pub_key: normalized key,
...UnsignedTransaction fields }`. -/
theorem signature_over_canonical_unsigned_bytes (env : Env) (origin : String)
    (pfs txFields : List (String × JsValue)) (node : Slip10Node)
    (pkHex addr : String) (rm su sg txb : List Nat)
    (hval : validateSignTransaction (.obj pfs) = true)
    (htx : lookupField pfs "transaction" = some (.obj txFields))
    (hent : env.entropyNode = .ok node)
    (hpk : node.privateKey = some pkHex)
    (hbech : env.bechEncodePublicKey (cleanPublicKeyResponse node.publicKey) =
      .ok addr)
    (happr : env.dialogApproved = true)
    (hsc : env.serializeCall ((lookupField txFields "call").getD .null) = .ok rm)
    (hsu : env.serializeUnsignedTransaction (unsignedTxOf txFields rm) = .ok su)
    (hsg : env.sign su (remove0x pkHex) = .ok sg)
    (hst : env.serializeTransaction
        (signedTxOf txFields rm sg (cleanPublicKeyResponse node.publicKey)) =
      .ok txb) :
    signedTxOf txFields rm sg (cleanPublicKeyResponse node.publicKey) =
      .obj (("signature", .obj [("msg_sig", .arr (sg.map natJs))]) ::
            ("pub_key", .str (cleanPublicKeyResponse node.publicKey)) ::
            (omitKey "call" txFields ++ [("runtime_msg", .arr (rm.map natJs))])) ∧
    onRpcRequest env origin "signTransaction" (.obj pfs) =
      (.ok (bytesToHex txb),
       [.validate "SignTransactionStruct",
        .snapGetBip32Entropy (getKeypairParams (getNumField (.obj pfs) "keyId")),
        .wasmBechEncodePublicKey (cleanPublicKeyResponse node.publicKey),
        .dialog origin addr,
        .wasmSerializeCall ((lookupField txFields "call").getD .null),
        .wasmSerializeUnsignedTransaction (unsignedTxOf txFields rm),
        .signCall su (remove0x pkHex),
        .wasmSerializeTransaction
          (signedTxOf txFields rm sg (cleanPublicKeyResponse node.publicKey)),
        .wasmDealloc]) := by
  refine ⟨rfl, ?_⟩
  simp [onRpcRequest, signTransactionHandler, signTransactionTry,
    txFieldsOf, paramsField, objFields, htx,
    hval, hent, hpk, hbech, happr, hsc, hsu, hsg, hst]

/-- Witness for C2 in the concrete approving environment on the concrete
valid request. -/
theorem signature_over_canonical_unsigned_bytes_witness :
    signedTxOf sampleTxFields [1, 2, 3] [8, 9]
        (cleanPublicKeyResponse sampleNode.publicKey) =
      .obj (("signature", .obj [("msg_sig", .arr (([8, 9] : List Nat).map natJs))]) ::
            ("pub_key", .str (cleanPublicKeyResponse sampleNode.publicKey)) ::
            (omitKey "call" sampleTxFields ++
             [("runtime_msg", .arr (([1, 2, 3] : List Nat).map natJs))])) ∧
    onRpcRequest sampleEnvApprove "app" "signTransaction" (.obj samplePfs) =
      (.ok (bytesToHex [6, 7]),
       [.validate "SignTransactionStruct",
        .snapGetBip32Entropy (getKeypairParams (getNumField (.obj samplePfs) "keyId")),
        .wasmBechEncodePublicKey (cleanPublicKeyResponse sampleNode.publicKey),
        .dialog "app" ("sov" ++ cleanPublicKeyResponse sampleNode.publicKey),
        .wasmSerializeCall ((lookupField sampleTxFields "call").getD .null),
        .wasmSerializeUnsignedTransaction (unsignedTxOf sampleTxFields [1, 2, 3]),
        .signCall [4, 5] (remove0x "0x0011"),
        .wasmSerializeTransaction
          (signedTxOf sampleTxFields [1, 2, 3] [8, 9]
            (cleanPublicKeyResponse sampleNode.publicKey)),
        .wasmDealloc]) :=
  signature_over_canonical_unsigned_bytes sampleEnvApprove "app"
    samplePfs sampleTxFields sampleNode "0x0011"
    ("sov" ++ cleanPublicKeyResponse sampleNode.publicKey)
    [1, 2, 3] [4, 5] [8, 9] [6, 7]
    rfl rfl rfl rfl rfl rfl rfl rfl rfl rfl

/-! ### C9: pub_key matches both the signing key and the displayed address -/

/-- Claim C9: in every successful `signTransaction`, the `pub_key` field of
the assembled SignedTransaction is the normalized (prefix-stripped) public key
of the derived SLIP-10 node whose private key produced the signature, and the
address shown in the confirmation dialog is the bech encoding of that same
normalized key: the displayed sender address always corresponds to the
signing key. -/
theorem pub_key_matches_displayed_address_key (env : Env) (origin : String)
    (pfs txFields : List (String × JsValue)) (node : Slip10Node)
    (pkHex addr : String) (rm su sg txb : List Nat)
    (hval : validateSignTransaction (.obj pfs) = true)
    (htx : lookupField pfs "transaction" = some (.obj txFields))
    (hent : env.entropyNode = .ok node)
    (hpk : node.privateKey = some pkHex)
    (hbech : env.bechEncodePublicKey (cleanPublicKeyResponse node.publicKey) =
      .ok addr)
    (happr : env.dialogApproved = true)
    (hsc : env.serializeCall ((lookupField txFields "call").getD .null) = .ok rm)
    (hsu : env.serializeUnsignedTransaction (unsignedTxOf txFields rm) = .ok su)
    (hsg : env.sign su (remove0x pkHex) = .ok sg)
    (hst : env.serializeTransaction
        (signedTxOf txFields rm sg (cleanPublicKeyResponse node.publicKey)) =
      .ok txb) :
    lookupField
        (objFields (signedTxOf txFields rm sg (cleanPublicKeyResponse node.publicKey)))
        "pub_key" =
      some (.str (cleanPublicKeyResponse node.publicKey)) ∧
    (onRpcRequest env origin "signTransaction" (.obj pfs)).2 =
      [.validate "SignTransactionStruct",
       .snapGetBip32Entropy (getKeypairParams (getNumField (.obj pfs) "keyId")),
       .wasmBechEncodePublicKey (cleanPublicKeyResponse node.publicKey),
       .dialog origin addr,
       .wasmSerializeCall ((lookupField txFields "call").getD .null),
       .wasmSerializeUnsignedTransaction (unsignedTxOf txFields rm),
       .signCall su (remove0x pkHex),
       .wasmSerializeTransaction
         (signedTxOf txFields rm sg (cleanPublicKeyResponse node.publicKey)),
       .wasmDealloc] := by
  refine ⟨rfl, ?_⟩
  simp [onRpcRequest, signTransactionHandler, signTransactionTry,
    txFieldsOf, paramsField, objFields, htx,
    hval, hent, hpk, hbech, happr, hsc, hsu, hsg, hst]

/-- Witness for C9 in the concrete approving environment: `pub_key` is the
stripped node key `aabb` and the dialog showed its bech encoding. -/
theorem pub_key_matches_displayed_address_key_witness :
    lookupField
        (objFields (signedTxOf sampleTxFields [1, 2, 3] [8, 9]
          (cleanPublicKeyResponse sampleNode.publicKey)))
        "pub_key" =
      some (.str (cleanPublicKeyResponse sampleNode.publicKey)) ∧
    (onRpcRequest sampleEnvApprove "app" "signTransaction" (.obj samplePfs)).2 =
      [.validate "SignTransactionStruct",
       .snapGetBip32Entropy (getKeypairParams (getNumField (.obj samplePfs) "keyId")),
       .wasmBechEncodePublicKey (cleanPublicKeyResponse sampleNode.publicKey),
       .dialog "app" ("sov" ++ cleanPublicKeyResponse sampleNode.publicKey),
       .wasmSerializeCall ((lookupField sampleTxFields "call").getD .null),
       .wasmSerializeUnsignedTransaction (unsignedTxOf sampleTxFields [1, 2, 3]),
       .signCall [4, 5] (remove0x "0x0011"),
       .wasmSerializeTransaction
         (signedTxOf sampleTxFields [1, 2, 3] [8, 9]
           (cleanPublicKeyResponse sampleNode.publicKey)),
       .wasmDealloc] :=
  pub_key_matches_displayed_address_key sampleEnvApprove "app"
    samplePfs sampleTxFields sampleNode "0x0011"
    ("sov" ++ cleanPublicKeyResponse sampleNode.publicKey)
    [1, 2, 3] [4, 5] [8, 9] [6, 7]
    rfl rfl rfl rfl rfl rfl rfl rfl rfl rfl

/-! ### Helper lemmas about property lookup and `omitKey` -/

/-- Unfolding lemma: lookup on a non-empty field list. -/
theorem lookupField_cons (a : String × JsValue) (fs : List (String × JsValue))
    (k : String) :
    lookupField (a :: fs) k = if a.1 == k then some a.2 else lookupField fs k :=
  rfl

/-- Unfolding lemma: `omitKey` on a non-empty field list. -/
theorem omitKey_cons (key : String) (a : String × JsValue)
    (fs : List (String × JsValue)) :
    omitKey key (a :: fs) =
      if a.1 != key then a :: omitKey key fs else omitKey key fs := by
  simp [omitKey, List.filter_cons]

/-- Removing one key does not change lookups of any other key. -/
theorem lookupField_omitKey_ne (fs : List (String × JsValue)) (key k : String)
    (h : k ≠ key) :
    lookupField (omitKey key fs) k = lookupField fs k := by
  induction fs with
  | nil => rfl
  | cons a fs ih =>
    rw [omitKey_cons, lookupField_cons]
    by_cases ha : a.1 = key
    · simp [ha, Ne.symm h, ih]
    · by_cases hk : a.1 = k
      · simp [ha, hk, h, lookupField_cons]
      · simp [ha, hk, lookupField_cons, ih]

/-- After removing a key, looking it up yields nothing. -/
theorem lookupField_omitKey_self (fs : List (String × JsValue)) (key : String) :
    lookupField (omitKey key fs) key = none := by
  induction fs with
  | nil => rfl
  | cons a fs ih =>
    rw [omitKey_cons]
    by_cases ha : a.1 = key
    · simp [ha, ih]
    · simp [ha, lookupField_cons, ih]

/-- Appending one keyed value at the end does not change lookups of other
keys. -/
theorem lookupField_append_single_ne (l : List (String × JsValue))
    (key k : String) (v : JsValue) (h : k ≠ key) :
    lookupField (l ++ [(key, v)]) k = lookupField l k := by
  induction l with
  | nil => simp [lookupField, lookupField_cons, Ne.symm h]
  | cons a l ih =>
    rw [List.cons_append, lookupField_cons, lookupField_cons]
    by_cases hk : a.1 = k
    · simp [hk]
    · simp [hk, ih]

/-- Appending one keyed value at the end makes it visible when the key was
absent before. -/
theorem lookupField_append_single_self (l : List (String × JsValue))
    (key : String) (v : JsValue) (h : lookupField l key = none) :
    lookupField (l ++ [(key, v)]) key = some v := by
  induction l with
  | nil => simp [lookupField, lookupField_cons]
  | cons a l ih =>
    rw [lookupField_cons] at h
    rw [List.cons_append, lookupField_cons]
    by_cases hk : a.1 = key
    · simp [hk] at h
    · simp [hk] at h ⊢
      exact ih h

/-- The key order of `omitKey` is the original key order with the removed key
filtered out. -/
theorem map_fst_omitKey (fs : List (String × JsValue)) (key : String) :
    (omitKey key fs).map Prod.fst =
      (fs.map Prod.fst).filter (fun k => k != key) := by
  induction fs with
  | nil => rfl
  | cons a fs ih =>
    rw [omitKey_cons, List.map_cons, List.filter_cons]
    by_cases ha : (a.1 != key) = true
    · simp [ha, ih]
    · have hf : (a.1 != key) = false := by simpa using ha
      simp [hf, ih]

/-- A key outside the declared `TransactionStruct` keys is absent from any
field list accepted by the struct. -/
theorem lookupField_none_of_all_keys (fs : List (String × JsValue)) (k : String)
    (hall : fs.all (fun p => transactionKeys.contains p.1) = true)
    (hk : transactionKeys.contains k = false) :
    lookupField fs k = none := by
  induction fs with
  | nil => rfl
  | cons a fs ih =>
    rw [List.all_cons, Bool.and_eq_true] at hall
    have hne : (a.1 == k) = false := by
      apply beq_eq_false_iff_ne.mpr
      intro he
      have hc := hall.1
      rw [he, hk] at hc
      exact Bool.false_ne_true hc
    rw [lookupField_cons, hne]
    simp only [Bool.false_eq_true, if_false]
    exact ih hall.2

/-- A validated `signTransaction` params object only carries the declared
transaction keys inside its `transaction` property. -/
theorem txFields_keys_of_valid (pfs txFields : List (String × JsValue))
    (hval : validateSignTransaction (.obj pfs) = true)
    (htx : lookupField pfs "transaction" = some (.obj txFields)) :
    txFields.all (fun p => transactionKeys.contains p.1) = true := by
  simp only [validateSignTransaction] at hval
  rw [htx] at hval
  simp only [Bool.and_eq_true] at hval
  have hvt := hval.1.1
  simp only [validateTransaction] at hvt
  simp only [Bool.and_eq_true] at hvt
  exact hvt.2

/-! ### C3: the call → runtime_msg substitution is the only structural
change -/

/-- Claim C3: the UnsignedTransaction handed to the canonical encoder is the
validated envelope with the `call` property removed and `runtime_msg` (the
serialized call) added, and this substitution is the only structural change:
every other property (`chain_id`, `max_priority_fee_bips`, `max_fee`,
`gas_limit`, `nonce`) keeps exactly its value, the relative order of those
properties is preserved, `call` is gone and `runtime_msg` holds exactly the
serialized call bytes. -/
theorem unsigned_transaction_substitution_frame (env : Env) (origin : String)
    (pfs txFields : List (String × JsValue)) (node : Slip10Node)
    (pkHex addr : String) (rm : List Nat)
    (hval : validateSignTransaction (.obj pfs) = true)
    (htx : lookupField pfs "transaction" = some (.obj txFields))
    (hent : env.entropyNode = .ok node)
    (hpk : node.privateKey = some pkHex)
    (hbech : env.bechEncodePublicKey (cleanPublicKeyResponse node.publicKey) =
      .ok addr)
    (happr : env.dialogApproved = true)
    (hsc : env.serializeCall ((lookupField txFields "call").getD .null) = .ok rm) :
    Event.wasmSerializeUnsignedTransaction (unsignedTxOf txFields rm) ∈
      (onRpcRequest env origin "signTransaction" (.obj pfs)).2 ∧
    unsignedTxOf txFields rm =
      .obj (omitKey "call" txFields ++ [("runtime_msg", .arr (rm.map natJs))]) ∧
    (∀ k, k ≠ "call" → k ≠ "runtime_msg" →
      lookupField (omitKey "call" txFields ++ [("runtime_msg", .arr (rm.map natJs))]) k =
        lookupField txFields k) ∧
    lookupField (omitKey "call" txFields ++ [("runtime_msg", .arr (rm.map natJs))])
        "call" = none ∧
    lookupField (omitKey "call" txFields ++ [("runtime_msg", .arr (rm.map natJs))])
        "runtime_msg" = some (.arr (rm.map natJs)) ∧
    (omitKey "call" txFields ++ [("runtime_msg", JsValue.arr (rm.map natJs))]).map Prod.fst =
      (txFields.map Prod.fst).filter (fun k => k != "call") ++ ["runtime_msg"] := by
  refine ⟨?_, rfl, ?_, ?_, ?_, ?_⟩
  · have hbase : (onRpcRequest env origin "signTransaction" (.obj pfs)).2 =
        Event.validate "SignTransactionStruct" ::
          (signTransactionTry env origin txFields
            (getKeypairParams (getNumField (.obj pfs) "keyId"))).2 ++
          [Event.wasmDealloc] := by
      simp [onRpcRequest, signTransactionHandler, txFieldsOf, paramsField,
        objFields, htx, hval]
    rw [hbase]
    have hmem : Event.wasmSerializeUnsignedTransaction (unsignedTxOf txFields rm) ∈
        (signTransactionTry env origin txFields
          (getKeypairParams (getNumField (.obj pfs) "keyId"))).2 := by
      simp only [signTransactionTry, hent, hpk, hbech, happr, hsc,
        Bool.not_true, Bool.false_eq_true, if_false]
      cases hsu : env.serializeUnsignedTransaction (unsignedTxOf txFields rm) with
      | error e => simp [hsu]
      | ok su =>
        cases hsg : env.sign su (remove0x pkHex) with
        | error e => simp [hsu, hsg]
        | ok sg =>
          cases hst : env.serializeTransaction
              (signedTxOf txFields rm sg (cleanPublicKeyResponse node.publicKey)) with
          | error e => simp [hsu, hsg, hst]
          | ok txb => simp [hsu, hsg, hst]
    exact List.mem_cons_of_mem _ (List.mem_append_left _ hmem)
  · intro k hkCall hkRtm
    rw [lookupField_append_single_ne _ _ _ _ hkRtm,
      lookupField_omitKey_ne _ _ _ hkCall]
  · rw [lookupField_append_single_ne _ _ _ _
      (by decide : ("call" : String) ≠ "runtime_msg")]
    exact lookupField_omitKey_self txFields "call"
  · apply lookupField_append_single_self
    rw [lookupField_omitKey_ne _ _ _ (by decide : ("runtime_msg" : String) ≠ "call")]
    exact lookupField_none_of_all_keys txFields "runtime_msg"
      (txFields_keys_of_valid pfs txFields hval htx) (by decide)
  · rw [List.map_append, map_fst_omitKey]
    rfl

/-- Witness for C3 at the concrete envelope: all six frame facts hold for the
concrete run of the approving environment. -/
theorem unsigned_transaction_substitution_frame_witness :
    Event.wasmSerializeUnsignedTransaction (unsignedTxOf sampleTxFields [1, 2, 3]) ∈
      (onRpcRequest sampleEnvApprove "app" "signTransaction" (.obj samplePfs)).2 ∧
    unsignedTxOf sampleTxFields [1, 2, 3] =
      .obj (omitKey "call" sampleTxFields ++
        [("runtime_msg", .arr (([1, 2, 3] : List Nat).map natJs))]) ∧
    (∀ k, k ≠ "call" → k ≠ "runtime_msg" →
      lookupField (omitKey "call" sampleTxFields ++
          [("runtime_msg", .arr (([1, 2, 3] : List Nat).map natJs))]) k =
        lookupField sampleTxFields k) ∧
    lookupField (omitKey "call" sampleTxFields ++
        [("runtime_msg", .arr (([1, 2, 3] : List Nat).map natJs))]) "call" = none ∧
    lookupField (omitKey "call" sampleTxFields ++
        [("runtime_msg", .arr (([1, 2, 3] : List Nat).map natJs))]) "runtime_msg" =
      some (.arr (([1, 2, 3] : List Nat).map natJs)) ∧
    (omitKey "call" sampleTxFields ++
        [("runtime_msg", JsValue.arr (([1, 2, 3] : List Nat).map natJs))]).map Prod.fst =
      (sampleTxFields.map Prod.fst).filter (fun k => k != "call") ++ ["runtime_msg"] :=
  unsigned_transaction_substitution_frame sampleEnvApprove "app"
    samplePfs sampleTxFields sampleNode "0x0011"
    ("sov" ++ cleanPublicKeyResponse sampleNode.publicKey) [1, 2, 3]
    rfl rfl rfl rfl rfl rfl rfl

/-! ### C4: codec release discipline -/

/-- The `getAddress` try block itself never releases the codec; the single
release is appended by the surrounding `try`/`catch`. -/
theorem getAddressTry_deallocCount (env : Env) (kp : KeypairParams) :
    deallocCount (getAddressTry env kp).2 = 0 := by
  cases hr : env.publicKeyResponse with
  | error e => simp [getAddressTry, hr, deallocCount, isDealloc]
  | ok resp =>
    cases hb : env.bechEncodePublicKey (cleanPublicKeyResponse resp) with
    | error e => simp [getAddressTry, hr, hb, deallocCount, isDealloc]
    | ok address => simp [getAddressTry, hr, hb, deallocCount, isDealloc]

/-- The `signTransaction` try block itself never releases the codec; the
single release is appended by the surrounding `try`/`catch`. -/
theorem signTransactionTry_deallocCount (env : Env) (origin : String)
    (txFields : List (String × JsValue)) (kp : KeypairParams) :
    deallocCount (signTransactionTry env origin txFields kp).2 = 0 := by
  cases hent : env.entropyNode with
  | error e => simp [signTransactionTry, hent, deallocCount, isDealloc]
  | ok node =>
    cases hpk : node.privateKey with
    | none => simp [signTransactionTry, hent, hpk, deallocCount, isDealloc]
    | some privateKeyHex =>
      cases hb : env.bechEncodePublicKey (cleanPublicKeyResponse node.publicKey) with
      | error e => simp [signTransactionTry, hent, hpk, hb, deallocCount, isDealloc]
      | ok address =>
        cases hd : env.dialogApproved with
        | false => simp [signTransactionTry, hent, hpk, hb, hd, deallocCount, isDealloc]
        | true =>
          cases hsc : env.serializeCall ((lookupField txFields "call").getD .null) with
          | error e =>
            simp [signTransactionTry, hent, hpk, hb, hd, hsc, deallocCount, isDealloc]
          | ok runtimeMsgBytes =>
            cases hsu : env.serializeUnsignedTransaction
                (unsignedTxOf txFields runtimeMsgBytes) with
            | error e =>
              simp [signTransactionTry, hent, hpk, hb, hd, hsc, hsu,
                deallocCount, isDealloc]
            | ok serializedUnsigned =>
              cases hsg : env.sign serializedUnsigned (remove0x privateKeyHex) with
              | error e =>
                simp [signTransactionTry, hent, hpk, hb, hd, hsc, hsu, hsg,
                  deallocCount, isDealloc]
              | ok sigBytes =>
                cases hst : env.serializeTransaction
                    (signedTxOf txFields runtimeMsgBytes sigBytes
                      (cleanPublicKeyResponse node.publicKey)) with
                | error e =>
                  simp [signTransactionTry, hent, hpk, hb, hd, hsc, hsu, hsg, hst,
                    deallocCount, isDealloc]
                | ok txBytes =>
                  simp [signTransactionTry, hent, hpk, hb, hd, hsc, hsu, hsg, hst,
                    deallocCount, isDealloc]

/-- Wrapping a dealloc-free trace between the validation event and the final
release yields exactly one release. -/
theorem deallocCount_wrap (s : String) (tr : List Event) :
    deallocCount (Event.validate s :: tr ++ [Event.wasmDealloc]) =
      deallocCount tr + 1 := by
  simp [deallocCount, List.filter_append, List.filter_cons, isDealloc]

/-- Counterexample to claim C4 as stated: the claim requires the codec
resource to be released exactly once on *every* exit path, including
validation failure; but on a `signTransaction` request whose `keyId` is a
string, the handler throws the validation error before the `try` block, so
`wasm.dealloc()` runs zero times, not once. -/
theorem release_on_validation_failure_refuted :
    (onRpcRequest sampleEnvApprove "app" "signTransaction"
        (.obj [("keyId", .str "0"), ("transaction", .obj sampleTxFields)])).1 =
      .error (.invalidParams signTransactionValidationMsg) ∧
    deallocCount
      (onRpcRequest sampleEnvApprove "app" "signTransaction"
        (.obj [("keyId", .str "0"), ("transaction", .obj sampleTxFields)])).2 = 0 :=
  ⟨rfl, rfl⟩

/-- Claim C4, amended: for every signing or address-lookup request that
passes validation, the codec working resource is released exactly once on
every exit path — normal completion, user rejection, and any
entropy/encoding/signing exception; on validation failure the handler
returns the `ValidationError` before any codec interaction, so no release
occurs (and none is needed, since nothing was acquired). -/
theorem codec_release_discipline (env : Env) (origin : String)
    (params : JsValue) :
    (validateGetAddress params = true →
      deallocCount (onRpcRequest env origin "getAddress" params).2 = 1) ∧
    (validateGetAddress params = false →
      onRpcRequest env origin "getAddress" params =
        (.error (.invalidParams getAddressValidationMsg),
         [.validate "GetAddressStruct"])) ∧
    (validateSignTransaction params = true →
      deallocCount (onRpcRequest env origin "signTransaction" params).2 = 1) ∧
    (validateSignTransaction params = false →
      onRpcRequest env origin "signTransaction" params =
        (.error (.invalidParams signTransactionValidationMsg),
         [.validate "SignTransactionStruct"])) := by
  refine ⟨?_, ?_, ?_, ?_⟩
  · intro h
    unfold onRpcRequest getAddressHandler
    rw [if_pos rfl, if_pos h]
    rw [deallocCount_wrap, getAddressTry_deallocCount]
  · intro h
    unfold onRpcRequest getAddressHandler
    rw [if_pos rfl, h]
    rfl
  · intro h
    unfold onRpcRequest signTransactionHandler
    rw [if_neg (by decide : ("signTransaction" : String) ≠ "getAddress"),
      if_pos rfl, if_pos h]
    rw [deallocCount_wrap, signTransactionTry_deallocCount]
  · intro h
    unfold onRpcRequest signTransactionHandler
    rw [if_neg (by decide : ("signTransaction" : String) ≠ "getAddress"),
      if_pos rfl, h]
    rfl

/-- Witness for the amended C4: one release on a valid `getAddress`, none on
an invalid one; one release on a valid approved `signTransaction` and one on
the same request when the operator rejects. -/
theorem codec_release_discipline_witness :
    deallocCount
      (onRpcRequest sampleEnvApprove "app" "getAddress"
        (.obj [("keyId", .num 0)])).2 = 1 ∧
    onRpcRequest sampleEnvApprove "app" "getAddress" (.obj []) =
      (.error (.invalidParams getAddressValidationMsg),
       [.validate "GetAddressStruct"]) ∧
    deallocCount
      (onRpcRequest sampleEnvApprove "app" "signTransaction"
        (.obj samplePfs)).2 = 1 ∧
    deallocCount
      (onRpcRequest sampleEnvReject "app" "signTransaction"
        (.obj samplePfs)).2 = 1 :=
  ⟨(codec_release_discipline sampleEnvApprove "app" (.obj [("keyId", .num 0)])).1 rfl,
   (codec_release_discipline sampleEnvApprove "app" (.obj [])).2.1 rfl,
   (codec_release_discipline sampleEnvApprove "app" (.obj samplePfs)).2.2.1 rfl,
   (codec_release_discipline sampleEnvReject "app" (.obj samplePfs)).2.2.1 rfl⟩

/-! ### C5: keyId validation -/

/-- Counterexample to claim C5 as stated: the claim requires validation to
accept `keyId` only when it is a non-negative integer and to fail with a
`ValidationError` on a negative or non-integer numeric value; but superstruct
`number()` accepts any number, so `keyId = -1` and `keyId = 1/2` both pass
validation, and the `getAddress` request with `keyId = -1` proceeds past the
validator and returns an address instead of a `ValidationError`. -/
theorem negative_keyId_accepted_refutes_claim :
    validateGetAddress (.obj [("keyId", .num (-1))]) = true ∧
    validateGetAddress (.obj [("keyId", .num ((1 : Rat) / 2))]) = true ∧
    validateSignTransaction
      (.obj [("keyId", .num (-1)), ("transaction", .obj sampleTxFields)]) = true ∧
    (onRpcRequest sampleEnvApprove "app" "getAddress"
        (.obj [("keyId", .num (-1))])).1 =
      .ok ("sov" ++ cleanPublicKeyResponse "0x00aabb") :=
  ⟨rfl, rfl, rfl, rfl⟩

/-- Claim C5, amended: for both operations the validator accepts `keyId`
exactly when it is present and is a number — any number, including negative
and non-integer values (superstruct `number()` does not check sign or
integrality) — and a missing or non-numeric `keyId` fails with a
`ValidationError` carrying a human-readable description before any external
call. -/
theorem keyId_number_validation (env : Env) (origin : String)
    (fs : List (String × JsValue)) :
    (validateGetAddress (.obj fs) = true ↔
      ∃ v, lookupField fs "keyId" = some v ∧ isNum v = true) ∧
    (validateSignTransaction (.obj fs) = true →
      ∃ v, lookupField fs "keyId" = some v ∧ isNum v = true) ∧
    (validateGetAddress (.obj fs) = false →
      onRpcRequest env origin "getAddress" (.obj fs) =
        (.error (.invalidParams getAddressValidationMsg),
         [.validate "GetAddressStruct"])) := by
  refine ⟨?_, ?_, ?_⟩
  · constructor
    · intro h
      simp only [validateGetAddress] at h
      cases hk : lookupField fs "keyId" with
      | none => rw [hk] at h; exact absurd h (by simp)
      | some v => rw [hk] at h; exact ⟨v, rfl, h⟩
    · rintro ⟨v, hk, hv⟩
      simp only [validateGetAddress]
      rw [hk]
      exact hv
  · intro h
    simp only [validateSignTransaction, Bool.and_eq_true] at h
    have hkid := h.1.2
    cases hk : lookupField fs "keyId" with
    | none => rw [hk] at hkid; exact absurd hkid (by simp)
    | some v => rw [hk] at hkid; exact ⟨v, rfl, hkid⟩
  · intro h
    unfold onRpcRequest getAddressHandler
    rw [if_pos rfl, h]
    rfl

/-- Witness for the amended C5: `keyId = 0` satisfies the acceptance
characterization for both structs, and the missing-`keyId` request fails with
the `ValidationError` and an empty external trace. -/
theorem keyId_number_validation_witness :
    (∃ v, lookupField [(("keyId" : String), JsValue.num 0)] "keyId" = some v ∧
      isNum v = true) ∧
    (∃ v, lookupField samplePfs "keyId" = some v ∧ isNum v = true) ∧
    onRpcRequest sampleEnvApprove "app" "getAddress" (.obj [("nope", .num 0)]) =
      (.error (.invalidParams getAddressValidationMsg),
       [.validate "GetAddressStruct"]) :=
  ⟨(keyId_number_validation sampleEnvApprove "app"
      [(("keyId" : String), JsValue.num 0)]).1.mp rfl,
   (keyId_number_validation sampleEnvApprove "app" samplePfs).2.1 rfl,
   (keyId_number_validation sampleEnvApprove "app"
      [(("nope" : String), JsValue.num 0)]).2.2 rfl⟩

end SovereignSnap
